import Mathlib

/-!
Verification of the PAU-to-motor mapping engine (`MapperFactory.py`).

The engine is embedded shallowly:

* Python numbers are modelled as exact rationals `ℚ` for the purely
  arithmetic transforms (Linear, WeightedSum, Composite, the builder), and
  as reals `ℝ` for the quaternion-to-Euler transforms, whose formulas use
  `atan2` / `asin`.
* A YAML stage record becomes `StageRecord`, a record of optional fields
  (`none` models an absent key; `args.has_key(k)` becomes `isSome`, and
  `args[k]` on an absent key becomes a `keyError`).
* Exceptions raised by the Python code (`KeyError`, `ZeroDivisionError`,
  `AttributeError`, `TypeError`, `ValueError`) become `Except` / `Option`
  results: construction returns `Except BuildErr _`, evaluation returns
  `Except RunErr _`, and the fallible math functions (`math.asin`,
  `math.acos` raise `ValueError` outside `[-1, 1]`) return `Option ℝ`.
* `build` returning Python `None` (when the description is neither a dict
  nor a list) is modelled as `Except.ok none`; a Python list of mappers
  that may contain `None` becomes `List (Option Mapper)`.
-/

/-- The owning motor/actuator entry; the engine only reads its `min` and
`max` (the physical command range). -/
structure MotorEntry where
  min : ℚ
  max : ℚ
  deriving DecidableEq

/-- One WeightedSum term descriptor `{min, max, imax}`. -/
structure Term where
  min : ℚ
  max : ℚ
  imax : ℚ
  deriving DecidableEq

/-- A YAML stage record: the `function` entry's fields, each optional
(`none` = key absent).  Field names follow the wire contract of the
source: `name`, `scale`, `translate`, `min`, `max`, `imin`, `terms`,
`axis`. -/
structure StageRecord where
  name : Option String := none
  scale : Option ℚ := none
  translate : Option ℚ := none
  min : Option ℚ := none
  max : Option ℚ := none
  imin : Option ℚ := none
  terms : Option (List Term) := none
  axis : Option String := none
  deriving DecidableEq

/-- Exceptions a constructor can raise: `KeyError` (missing dict key or
unknown registry/axis name) and `ZeroDivisionError` (float division by
zero at build time). -/
inductive BuildErr where
  | keyError : BuildErr
  | zeroDivision : BuildErr
  deriving DecidableEq

/-- Exceptions `map` can raise at evaluation time: `AttributeError`
(attribute never set, or `.map` on `None`, or `.w/.x/.y/.z` on a
non-quaternion) and `TypeError` (arithmetic or iteration over a value of
the wrong shape). -/
inductive RunErr where
  | attributeError : RunErr
  | typeError : RunErr
  deriving DecidableEq

/-- Coefficients of a built `Linear` mapper:
`map val = (val + pretranslate) * scale + posttranslate`. -/
structure LinCoeffs where
  pretranslate : ℚ
  scale : ℚ
  posttranslate : ℚ
  deriving DecidableEq

/-- `Linear.map`: `(val + self.pretranslate) * self.scale + self.posttranslate`. -/
def linMap (c : LinCoeffs) (val : ℚ) : ℚ :=
  (val + c.pretranslate) * c.scale + c.posttranslate

namespace Linear

/-- `Linear.__init__`.  First branch: `scale` and `translate` both
present.  Second branch: `min` and `max` both present; the division
`(motor.max - motor.min) / (args.max - args.min)` raises
`ZeroDivisionError` when `args.max = args.min`.  When neither key pair is
fully present, the Python `if`/`elif` falls through: the object is
constructed *successfully* with its three attributes never set, modelled
as `.ok none`. -/
def build (args : StageRecord) (motor : MotorEntry) : Except BuildErr (Option LinCoeffs) :=
  match args.scale, args.translate with
  | some s, some t => .ok (some ⟨0, s, t⟩)
  | _, _ =>
    match args.min, args.max with
    | some mn, some mx =>
      if mx - mn = 0 then .error .zeroDivision
      else .ok (some ⟨-mn, (motor.max - motor.min) / (mx - mn), motor.min⟩)
    | _, _ => .ok none

end Linear

/-- State of a built `WeightedSum` mapper. -/
structure WSState where
  posttranslate : ℚ
  pretranslations : List ℚ
  scalefactors : List ℚ
  termargs : List Term
  deriving DecidableEq

/-- `WeightedSum._saturated`: clamp `val` to the *unordered* bounds of the
term interval, `min(max(val, min(t.min, t.max)), max(t.min, t.max))`. -/
def saturated (val : ℚ) (t : Term) : ℚ :=
  min (max val (min t.min t.max)) (max t.min t.max)

/-- `WeightedSum.map`: zip the input tuple with the per-term coefficients
(Python's `zip` silently truncates to the shortest sequence), apply
`(saturated val term + translate) * scale` per element, sum, and add
`posttranslate`. -/
def wsMap (st : WSState) (vals : List ℚ) : ℚ :=
  ((vals.zip (st.pretranslations.zip (st.scalefactors.zip st.termargs))).map
    (fun x => (saturated x.1 x.2.2.2 + x.2.1) * x.2.2.1)).sum + st.posttranslate

namespace WeightedSum

/-- `WeightedSum.__init__`: reads `args["imin"]` and `args["terms"]`
(`KeyError` when absent), computes `range_motors = motor.max - motor.min`,
`posttranslate = imin * range_motors + motor.min`, and per term the
pretranslation `-t.min` and scale factor
`(t.imax - imin) / (t.max - t.min) * range_motors`.  Python 2's eager
`map` raises `ZeroDivisionError` at build time when some `t.max = t.min`. -/
def build (args : StageRecord) (motor : MotorEntry) : Except BuildErr WSState :=
  match args.imin with
  | none => .error .keyError
  | some imin =>
    match args.terms with
    | none => .error .keyError
    | some ts =>
      if ts.any (fun t => t.max - t.min = 0) then .error .zeroDivision
      else
        let range_motors := motor.max - motor.min
        .ok ⟨imin * range_motors + motor.min,
             ts.map (fun t => -t.min),
             ts.map (fun t => (t.imax - imin) / (t.max - t.min) * range_motors),
             ts⟩

end WeightedSum

/-- The axis selected at build time by the quaternion-to-Euler
constructors (the key into `funcsByAxis`). -/
inductive QAxis where
  | x : QAxis
  | y : QAxis
  | z : QAxis
  deriving DecidableEq

/-- ASCII lower-casing of one character, as Python's `str.lower` acts on
the ASCII axis names in the configuration. -/
def lowerChar (c : Char) : Char :=
  if 'A' ≤ c ∧ c ≤ 'Z' then Char.ofNat (c.toNat + 32) else c

/-- Python's `str.lower` on the (ASCII) axis string. -/
def pyLower (s : String) : String :=
  ⟨s.data.map lowerChar⟩

/-- The dictionary-key lookup `funcsByAxis[args['axis'].lower()]`:
case-insensitive selection of one axis, `KeyError` (modelled as `none`)
for any other string.  Both quaternion variants use keys `x`, `y`, `z`. -/
def selectAxis (s : String) : Option QAxis :=
  if pyLower s = "x" then some .x
  else if pyLower s = "y" then some .y
  else if pyLower s = "z" then some .z
  else none

namespace Q2E

/-- Shared constructor logic of `Quaternion2EulerYZX.__init__` and
`Quaternion2EulerYZY.__init__`: read `args['axis']` (`KeyError` when
absent), lower-case it, and select exactly one axis function at build
time (`KeyError` for an unknown axis).  The `motor_entry` argument is
passed but unused, as in the source. -/
def buildAxis (args : StageRecord) (motor : MotorEntry) : Except BuildErr QAxis :=
  match args.axis with
  | none => .error .keyError
  | some s =>
    match selectAxis s with
    | some ax => .ok ax
    | none => .error .keyError

end Q2E

-- keep the parameter-shape of the source visible to the simp-normal form
theorem Q2E.buildAxis_motor_irrel (args : StageRecord) (m m' : MotorEntry) :
    Q2E.buildAxis args m = Q2E.buildAxis args m' := rfl

/-- A quaternion `(w, x, y, z)`, the input of the quaternion-to-Euler
mappers, with real components. -/
structure Quat where
  w : ℝ
  x : ℝ
  y : ℝ
  z : ℝ

/-- Python's `math.atan2(y, x)`: the two-argument arctangent, total. -/
noncomputable def atan2 (y x : ℝ) : ℝ :=
  if 0 < x then Real.arctan (y / x)
  else if x < 0 then
    (if 0 ≤ y then Real.arctan (y / x) + Real.pi else Real.arctan (y / x) - Real.pi)
  else
    (if 0 < y then Real.pi / 2 else if y < 0 then -(Real.pi / 2) else 0)

/-- Python's `math.asin`: raises `ValueError` (here `none`) outside
`[-1, 1]`; the source does not clamp its argument. -/
noncomputable def asinChecked (a : ℝ) : Option ℝ :=
  if -1 ≤ a ∧ a ≤ 1 then some (Real.arcsin a) else none

/-- Python's `math.acos`: raises `ValueError` (here `none`) outside
`[-1, 1]`. -/
noncomputable def acosChecked (a : ℝ) : Option ℝ :=
  if -1 ≤ a ∧ a ≤ 1 then some (Real.arccos a) else none

/-- The axis functions of `Quaternion2EulerYZX` (`funcsByAxis`), applied
to the axis chosen at build time: the Y-Z-X (Tait-Bryan) angle formulas.
Only the `z` branch (`math.asin`) can fail. -/
noncomputable def yzxFun : QAxis → Quat → Option ℝ
  | .y, q => some (atan2 (-2 * (q.z * q.x - q.w * q.y))
      (q.w ^ 2 - q.y ^ 2 - q.z ^ 2 + q.x ^ 2))
  | .z, q => asinChecked (2 * (q.y * q.x + q.w * q.z))
  | .x, q => some (atan2 (-2 * (q.y * q.z - q.w * q.x))
      (q.w ^ 2 + q.y ^ 2 - q.z ^ 2 - q.x ^ 2))

/-- The `why` helper of `Quaternion2EulerYZY` (its `x` branch): the
diagnostic intermediates (`acos(q.w)`, the divisions by `sin(alpha/2)`,
the `acos` of each direction cosine, and the diagnostic `asin`) are
evaluated — and can raise — before the `atan2` result is returned; the
`print` side effects are dropped. -/
noncomputable def yzyWhy (q : Quat) : Option ℝ := do
  let a ← acosChecked q.w
  let alpha := 2 * a
  let sina := Real.sin (0.5 * alpha)
  if sina = 0 then none
  else do
    let _ ← acosChecked (q.x / sina)
    let _ ← acosChecked (q.y / sina)
    let _ ← acosChecked (q.z / sina)
    let _ ← asinChecked (2 * (q.y * q.x + q.w * q.z))
    some (atan2 (-2 * (q.z * q.x - q.w * q.y))
      (q.w ^ 2 - q.y ^ 2 - q.z ^ 2 + q.x ^ 2))

/-- The axis functions of `Quaternion2EulerYZY` (`funcsByAxis`): a
different axis-to-formula assignment than the YZX variant. -/
noncomputable def yzyFun : QAxis → Quat → Option ℝ
  | .x, q => yzyWhy q
  | .z, q => asinChecked (2 * (q.y * q.x + q.w * q.z))
  | .y, q => some (atan2 (-2 * (q.y * q.z - q.w * q.x))
      (q.w ^ 2 + q.y ^ 2 - q.z ^ 2 - q.x ^ 2))

/-- A dynamic value flowing through a built pipeline: a scalar or a tuple
of scalars.  (Quaternion inputs are treated in the real-valued
development above; applying a quaternion mapper to a scalar or tuple
raises `AttributeError` in Python, accessing `.z` on it.) -/
inductive DValue where
  | num : ℚ → DValue
  | tup : List ℚ → DValue
  deriving DecidableEq

/-- A built transform instance.  A Python `Composite` holds the raw list
produced by the builder's list comprehension, whose elements may be
`None` (when `build` returned `None` for an element): hence
`List (Option Mapper)`.  `linear none` is a `Linear` whose `__init__`
fell through both branches, leaving its attributes unset. -/
inductive Mapper where
  | linear : Option LinCoeffs → Mapper
  | weightedSum : WSState → Mapper
  | q2eYZX : QAxis → Mapper
  | q2eYZY : QAxis → Mapper
  | composite : List (Option Mapper) → Mapper

mutual

/-- `map` of each variant on a dynamic value.  `linear none` raises
`AttributeError` (attributes unset); `Linear.map` on a tuple raises
`TypeError` (`list + float`); `WeightedSum.map` on a scalar raises
`TypeError` (`zip` over a non-iterable); the quaternion variants raise
`AttributeError` on scalars and tuples (no `.z` attribute); `Composite`
threads the value through its list. -/
def Mapper.map : Mapper → DValue → Except RunErr DValue
  | .linear none, _ => .error .attributeError
  | .linear (some c), .num v => .ok (.num (linMap c v))
  | .linear (some _), .tup _ => .error .typeError
  | .weightedSum st, .tup vs => .ok (.num (wsMap st vs))
  | .weightedSum _, .num _ => .error .typeError
  | .q2eYZX _, _ => .error .attributeError
  | .q2eYZY _, _ => .error .attributeError
  | .composite ms, v => Mapper.mapThread ms v

/-- `Composite.map`'s loop: `for mapper_instance in self.mapper_list:
val = mapper_instance.map(val)`.  A `None` element raises
`AttributeError` (`None` has no `map`). -/
def Mapper.mapThread : List (Option Mapper) → DValue → Except RunErr DValue
  | [], v => .ok v
  | none :: _, _ => .error .attributeError
  | some mp :: rest, v =>
    match Mapper.map mp v with
    | .ok v2 => Mapper.mapThread rest v2
    | .error e => .error e

end

/-- A YAML value handed to `build`: a stage record (dict), a list, or any
other scalar YAML value (number, string, …). -/
inductive YamlObj where
  | dict : StageRecord → YamlObj
  | list : List YamlObj → YamlObj
  | scalar : ℚ → YamlObj

mutual

/-- `build(yamlobj, motor_entry)`.  A dict is looked up by `name` in the
fixed registry `_mapper_classes` (`linear`, `weightedsum`,
`quaternion2euler`, `quaternion2YZY`); a missing or unknown `name` raises
`KeyError` with no fallback.  A list recursively builds each element and
wraps the results in a `Composite`.  Anything else falls off the end of
the function and returns Python `None` (`.ok none`). -/
def build : YamlObj → MotorEntry → Except BuildErr (Option Mapper)
  | .dict r, motor =>
    match r.name with
    | none => .error .keyError
    | some n =>
      if n = "linear" then (Linear.build r motor).map (fun st => some (.linear st))
      else if n = "weightedsum" then
        (WeightedSum.build r motor).map (fun st => some (.weightedSum st))
      else if n = "quaternion2euler" then
        (Q2E.buildAxis r motor).map (fun ax => some (.q2eYZX ax))
      else if n = "quaternion2YZY" then
        (Q2E.buildAxis r motor).map (fun ax => some (.q2eYZY ax))
      else .error .keyError
  | .list l, motor => (buildList l motor).map (fun ms => some (.composite ms))
  | .scalar _, _ => .ok none

/-- The list comprehension
`[build(func_entry, motor_entry) for func_entry in yamlobj]`: an
exception from any element propagates; otherwise the (possibly `None`)
results are collected in order. -/
def buildList : List YamlObj → MotorEntry → Except BuildErr (List (Option Mapper))
  | [], _ => .ok []
  | o :: rest, motor =>
    match build o motor with
    | .error e => .error e
    | .ok m =>
      match buildList rest motor with
      | .error e => .error e
      | .ok ms => .ok (m :: ms)

end

/-! ### Helper lemmas -/

theorem mapThread_nil (v : DValue) : Mapper.mapThread [] v = .ok v := by
  simp [Mapper.mapThread]

theorem mapThread_pair (A B : Mapper) (v : DValue) :
    Mapper.mapThread [some A, some B] v = (Mapper.map A v).bind (Mapper.map B) := by
  cases hA : Mapper.map A v with
  | error e => simp [Mapper.mapThread, hA, Except.bind]
  | ok v1 =>
    cases hB : Mapper.map B v1 with
    | error e => simp [Mapper.mapThread, hA, hB, Except.bind]
    | ok v2 => simp [Mapper.mapThread, hA, hB, Except.bind]

theorem wsSum_aux (imin R : ℚ) (ts : List Term) (vals : List ℚ) :
    ((vals.zip ((ts.map fun t => -t.min).zip
        ((ts.map fun t => (t.imax - imin) / (t.max - t.min) * R).zip ts))).map
      (fun x => (saturated x.1 x.2.2.2 + x.2.1) * x.2.2.1)).sum =
    ((vals.zip ts).map (fun p =>
      (saturated p.1 p.2 - p.2.min) *
        ((p.2.imax - imin) / (p.2.max - p.2.min) * R))).sum := by
  induction ts generalizing vals with
  | nil => simp
  | cons t ts ih =>
    cases vals with
    | nil => simp
    | cons v vs =>
      simp only [List.map_cons, List.zip_cons_cons, List.sum_cons, ih vs]
      ring

/-! ### Claim theorems -/

/-- C1: the range-fitting `Linear` (stage record supplying input bounds
`imin`, `imax` with `imin ≠ imax`) is built with pretranslate `-imin`,
scale `(amax - amin) / (imax - imin)` and posttranslate `amin`, so that
`map v = (v - imin) * ((amax - amin) / (imax - imin)) + amin`; in
particular `map imin = amin` and `map imax = amax`. -/
theorem C1_linear_range_fitting (amin amax imin imax v : ℚ) (h : imin ≠ imax) :
    Linear.build { min := some imin, max := some imax } ⟨amin, amax⟩ =
      .ok (some ⟨-imin, (amax - amin) / (imax - imin), amin⟩) ∧
    linMap ⟨-imin, (amax - amin) / (imax - imin), amin⟩ v =
      (v - imin) * ((amax - amin) / (imax - imin)) + amin ∧
    linMap ⟨-imin, (amax - amin) / (imax - imin), amin⟩ imin = amin ∧
    linMap ⟨-imin, (amax - amin) / (imax - imin), amin⟩ imax = amax := by
  have hne : imax - imin ≠ 0 := sub_ne_zero.mpr (Ne.symm h)
  refine ⟨by simp [Linear.build, hne], by simp [linMap, sub_eq_add_neg], ?_, ?_⟩
  · simp [linMap]
  · simp only [linMap, ← sub_eq_add_neg]
    field_simp

theorem C1_linear_range_fitting_witness :
    (1 : ℚ) ≠ 3 ∧
    (Linear.build { min := some (1 : ℚ), max := some 3 } ⟨0, 10⟩ =
        .ok (some ⟨-1, (10 - 0) / (3 - 1), 0⟩) ∧
      linMap ⟨-1, (10 - 0) / (3 - 1), 0⟩ 2 = (2 - 1) * ((10 - 0) / (3 - 1)) + 0 ∧
      linMap ⟨-1, (10 - 0) / (3 - 1), 0⟩ 1 = 0 ∧
      linMap ⟨-1, (10 - 0) / (3 - 1), 0⟩ 3 = 10) :=
  ⟨by norm_num, C1_linear_range_fitting 0 10 1 3 2 (by norm_num)⟩

/-- C6: the explicit affine `Linear` (record containing both `scale` and
`translate`) maps `v` to `v * scale + translate`, for every `scale`,
`translate` and `v` (whatever else the record contains). -/
theorem C6_linear_affine (r : StageRecord) (m : MotorEntry) (s t v : ℚ)
    (hs : r.scale = some s) (ht : r.translate = some t) :
    Linear.build r m = .ok (some ⟨0, s, t⟩) ∧ linMap ⟨0, s, t⟩ v = v * s + t := by
  refine ⟨?_, by simp [linMap]⟩
  simp [Linear.build, hs, ht]

theorem C6_linear_affine_witness :
    ({ scale := some 2, translate := some 3 : StageRecord }).scale = some 2 ∧
    ({ scale := some 2, translate := some 3 : StageRecord }).translate = some 3 ∧
    (Linear.build { scale := some 2, translate := some 3 } ⟨0, 1⟩ = .ok (some ⟨0, 2, 3⟩) ∧
      linMap ⟨0, 2, 3⟩ 5 = 5 * 2 + 3) :=
  ⟨rfl, rfl, C6_linear_affine { scale := some 2, translate := some 3 } ⟨0, 1⟩ 2 3 5 rfl rfl⟩

/-- C8 (code evaluation): a `Linear` record with neither complete key
pair does NOT fail at build time — `Linear.__init__` falls through both
branches and construction succeeds with the coefficients unset
(`.ok none`), the full builder likewise succeeds, and the failure is
deferred to evaluation time, where `map` raises `AttributeError`. -/
theorem C8_linear_missing_keys_code (m : MotorEntry) (v : DValue) :
    Linear.build { name := some "linear" } m = .ok none ∧
    build (.dict { name := some "linear" }) m = .ok (some (.linear none)) ∧
    Mapper.map (.linear none) v = .error .attributeError := by
  refine ⟨rfl, ?_, ?_⟩
  · simp [build, Linear.build, Except.map]
  · simp [Mapper.map]

/-- C10: `build` applied to a description that is neither a dict nor a
list falls off the end of the function and returns Python `None`
(`.ok none`): no configuration error is raised and no mapper object is
produced. -/
theorem C10_build_other_none (q : ℚ) (m : MotorEntry) :
    build (.scalar q) m = .ok none := by
  simp [build]

/-- C5: the empty `Composite` is the identity transform, and the
two-stage `Composite([A, B])` maps `v` to `B.map (A.map v)` (the value
threads through the stages in list order, an exception from `A`
propagating). -/
theorem C5_composite_laws (A B : Mapper) (v : DValue) :
    Mapper.map (.composite []) v = .ok v ∧
    Mapper.map (.composite [some A, some B]) v =
      (Mapper.map A v).bind (Mapper.map B) := by
  refine ⟨?_, ?_⟩
  · simp [Mapper.map, Mapper.mapThread]
  · rw [Mapper.map]
    exact mapThread_pair A B v

/-- C2: a `WeightedSum` built from `imin` and terms with pairwise
non-degenerate intervals constructs with the stated coefficients, and on
an input tuple aligned positionally with the terms its `map` is the sum
over terms of
`(clamp(v, unordered bounds) - t.min) * ((t.imax - imin) / (t.max - t.min) * R)`
plus `imin * R + amin`; inverted term bounds (`min > max`) never raise,
since the clamp uses the unordered bounds. -/
theorem C2_weightedsum_map (m : MotorEntry) (imin : ℚ) (ts : List Term) (vals : List ℚ)
    (hnz : ∀ t ∈ ts, t.max - t.min ≠ 0) (hlen : vals.length = ts.length) :
    WeightedSum.build { imin := some imin, terms := some ts } m =
      .ok ⟨imin * (m.max - m.min) + m.min,
           ts.map (fun t => -t.min),
           ts.map (fun t => (t.imax - imin) / (t.max - t.min) * (m.max - m.min)),
           ts⟩ ∧
    wsMap ⟨imin * (m.max - m.min) + m.min,
           ts.map (fun t => -t.min),
           ts.map (fun t => (t.imax - imin) / (t.max - t.min) * (m.max - m.min)),
           ts⟩ vals =
      ((vals.zip ts).map (fun p =>
        (saturated p.1 p.2 - p.2.min) *
          ((p.2.imax - imin) / (p.2.max - p.2.min) * (m.max - m.min)))).sum +
      (imin * (m.max - m.min) + m.min) := by
  constructor
  · have hany : ts.any (fun t => decide (t.max - t.min = 0)) = false := by
      simp only [List.any_eq_false, decide_eq_true_eq]
      exact hnz
    simp [WeightedSum.build, hany]
  · simp only [wsMap, wsSum_aux]

theorem C2_weightedsum_map_witness :
    (∀ t ∈ [({ min := 1, max := 0, imax := 1 } : Term)], t.max - t.min ≠ (0 : ℚ)) ∧
    ([(2 : ℚ)].length = [({ min := 1, max := 0, imax := 1 } : Term)].length) ∧
    (WeightedSum.build
        { imin := some 0, terms := some [({ min := 1, max := 0, imax := 1 } : Term)] } ⟨0, 1⟩ =
      .ok ⟨0 * ((1 : ℚ) - 0) + 0,
           [({ min := 1, max := 0, imax := 1 } : Term)].map (fun t => -t.min),
           [({ min := 1, max := 0, imax := 1 } : Term)].map
             (fun t => (t.imax - 0) / (t.max - t.min) * ((1 : ℚ) - 0)),
           [({ min := 1, max := 0, imax := 1 } : Term)]⟩ ∧
      wsMap ⟨0 * ((1 : ℚ) - 0) + 0,
           [({ min := 1, max := 0, imax := 1 } : Term)].map (fun t => -t.min),
           [({ min := 1, max := 0, imax := 1 } : Term)].map
             (fun t => (t.imax - 0) / (t.max - t.min) * ((1 : ℚ) - 0)),
           [({ min := 1, max := 0, imax := 1 } : Term)]⟩ [(2 : ℚ)] =
        (([(2 : ℚ)].zip [({ min := 1, max := 0, imax := 1 } : Term)]).map (fun p =>
          (saturated p.1 p.2 - p.2.min) *
            ((p.2.imax - 0) / (p.2.max - p.2.min) * ((1 : ℚ) - 0)))).sum +
        (0 * ((1 : ℚ) - 0) + 0)) :=
  ⟨by norm_num, by norm_num,
   C2_weightedsum_map ⟨0, 1⟩ 0 [({ min := 1, max := 0, imax := 1 } : Term)] [(2 : ℚ)]
     (by norm_num) (by norm_num)⟩

/-- C9 (code evaluation): the configured term count is NOT validated
against the input tuple's arity — nothing checks it at build or call
time.  `zip` silently truncates: a two-term `WeightedSum` applied to a
one-element tuple returns a result computed from the pairing of that one
input with the first term only. -/
theorem C9_weightedsum_arity_code :
    WeightedSum.build
        { imin := some 0, terms := some [⟨0, 1, 1⟩, ⟨0, 1, 1⟩] } ⟨0, 1⟩ =
      .ok ⟨0, [0, 0], [1, 1], [⟨0, 1, 1⟩, ⟨0, 1, 1⟩]⟩ ∧
    Mapper.map (.weightedSum ⟨0, [0, 0], [1, 1], [⟨0, 1, 1⟩, ⟨0, 1, 1⟩]⟩)
        (.tup [1/2]) = .ok (.num (1/2)) := by
  constructor
  · norm_num [WeightedSum.build]
  · rw [Mapper.map]
    norm_num [wsMap, saturated]

/-- C4: `build` on a single stage record dispatches on the record's
`name` through the fixed registry (`linear`, `weightedsum`,
`quaternion2euler`, `quaternion2YZY`), passing the record and the
actuator descriptor to the selected constructor; an unknown name raises
`KeyError` with no fallback; `build` on an ordered list returns a
`Composite` of the recursively built stages, and evaluating a two-stage
`Composite` equals manual sequential application of the two stages. -/
theorem C4_build_dispatch (m : MotorEntry) (r : StageRecord) (n : String)
    (l : List YamlObj) (hn : r.name = some n) :
    (n = "linear" →
      build (.dict r) m = (Linear.build r m).map (fun st => some (.linear st))) ∧
    (n = "weightedsum" →
      build (.dict r) m = (WeightedSum.build r m).map (fun st => some (.weightedSum st))) ∧
    (n = "quaternion2euler" →
      build (.dict r) m = (Q2E.buildAxis r m).map (fun ax => some (.q2eYZX ax))) ∧
    (n = "quaternion2YZY" →
      build (.dict r) m = (Q2E.buildAxis r m).map (fun ax => some (.q2eYZY ax))) ∧
    (n ∉ ["linear", "weightedsum", "quaternion2euler", "quaternion2YZY"] →
      build (.dict r) m = .error .keyError) ∧
    build (.list l) m = (buildList l m).map (fun ms => some (.composite ms)) ∧
    (∀ o1 o2 A B, build o1 m = .ok (some A) → build o2 m = .ok (some B) →
      build (.list [o1, o2]) m = .ok (some (.composite [some A, some B])) ∧
      ∀ w, Mapper.map (.composite [some A, some B]) w =
        (Mapper.map A w).bind (Mapper.map B)) := by
  refine ⟨?_, ?_, ?_, ?_, ?_, ?_, ?_⟩
  · intro h; subst h; simp [build, hn]
  · intro h; subst h; simp [build, hn]
  · intro h; subst h; simp [build, hn]
  · intro h; subst h; simp [build, hn]
  · intro h
    simp only [List.mem_cons, List.not_mem_nil, or_false] at h
    push_neg at h
    obtain ⟨h1, h2, h3, h4⟩ := h
    simp [build, hn, h1, h2, h3, h4]
  · simp [build]
  · intro o1 o2 A B h1 h2
    refine ⟨?_, fun w => ?_⟩
    · simp [build, buildList, h1, h2, Except.map]
    · rw [Mapper.map]
      exact mapThread_pair A B w

theorem C4_build_dispatch_witness :
    ({ name := some "bogus" : StageRecord }).name = some "bogus" ∧
    (("bogus" = "linear" →
      build (.dict { name := some "bogus" }) ⟨0, 1⟩ =
        (Linear.build { name := some "bogus" } ⟨0, 1⟩).map (fun st => some (.linear st))) ∧
    ("bogus" = "weightedsum" →
      build (.dict { name := some "bogus" }) ⟨0, 1⟩ =
        (WeightedSum.build { name := some "bogus" } ⟨0, 1⟩).map
          (fun st => some (.weightedSum st))) ∧
    ("bogus" = "quaternion2euler" →
      build (.dict { name := some "bogus" }) ⟨0, 1⟩ =
        (Q2E.buildAxis { name := some "bogus" } ⟨0, 1⟩).map (fun ax => some (.q2eYZX ax))) ∧
    ("bogus" = "quaternion2YZY" →
      build (.dict { name := some "bogus" }) ⟨0, 1⟩ =
        (Q2E.buildAxis { name := some "bogus" } ⟨0, 1⟩).map (fun ax => some (.q2eYZY ax))) ∧
    ("bogus" ∉ ["linear", "weightedsum", "quaternion2euler", "quaternion2YZY"] →
      build (.dict { name := some "bogus" }) ⟨0, 1⟩ = .error .keyError) ∧
    build (.list []) ⟨0, 1⟩ = (buildList [] ⟨0, 1⟩).map (fun ms => some (.composite ms)) ∧
    (∀ o1 o2 A B, build o1 ⟨0, 1⟩ = .ok (some A) → build o2 ⟨0, 1⟩ = .ok (some B) →
      build (.list [o1, o2]) ⟨0, 1⟩ = .ok (some (.composite [some A, some B])) ∧
      ∀ w, Mapper.map (.composite [some A, some B]) w =
        (Mapper.map A w).bind (Mapper.map B))) :=
  ⟨rfl, C4_build_dispatch ⟨0, 1⟩ { name := some "bogus" } "bogus" [] rfl⟩

/-- C3: the `Quaternion2EulerYZX` constructor selects, at build time,
exactly one axis function from a case-insensitive `axis` parameter (the
result is a fixed axis tag, so the selection cannot be re-evaluated per
call), and the built map computes: axis `y` →
`atan2(-2(zx - wy), w² - y² - z² + x²)`; axis `z` → `asin(2(yx + wz))`
(fallible outside `[-1, 1]`); axis `x` →
`atan2(-2(yz - wx), w² + y² - z² - x²)`. -/
theorem C3_q2e_yzx_formulas (r : StageRecord) (m : MotorEntry) (s : String) (q : Quat)
    (hax : r.axis = some s) :
    (pyLower s = "y" → Q2E.buildAxis r m = .ok .y ∧
      yzxFun .y q = some (atan2 (-2 * (q.z * q.x - q.w * q.y))
        (q.w ^ 2 - q.y ^ 2 - q.z ^ 2 + q.x ^ 2))) ∧
    (pyLower s = "z" → Q2E.buildAxis r m = .ok .z ∧
      yzxFun .z q = asinChecked (2 * (q.y * q.x + q.w * q.z))) ∧
    (pyLower s = "x" → Q2E.buildAxis r m = .ok .x ∧
      yzxFun .x q = some (atan2 (-2 * (q.y * q.z - q.w * q.x))
        (q.w ^ 2 + q.y ^ 2 - q.z ^ 2 - q.x ^ 2))) := by
  refine ⟨fun h => ⟨?_, rfl⟩, fun h => ⟨?_, rfl⟩, fun h => ⟨?_, rfl⟩⟩ <;>
    simp [Q2E.buildAxis, hax, selectAxis, h]

theorem C3_q2e_yzx_formulas_witness :
    ({ axis := some "Z" : StageRecord }).axis = some "Z" ∧
    ((pyLower "Z" = "y" → Q2E.buildAxis { axis := some "Z" } ⟨0, 1⟩ = .ok .y ∧
      yzxFun .y ⟨1, 0, 0, 0⟩ = some (atan2 (-2 * ((0:ℝ) * 0 - 1 * 0))
        ((1:ℝ) ^ 2 - 0 ^ 2 - 0 ^ 2 + 0 ^ 2))) ∧
    (pyLower "Z" = "z" → Q2E.buildAxis { axis := some "Z" } ⟨0, 1⟩ = .ok .z ∧
      yzxFun .z ⟨1, 0, 0, 0⟩ = asinChecked (2 * ((0:ℝ) * 0 + 1 * 0))) ∧
    (pyLower "Z" = "x" → Q2E.buildAxis { axis := some "Z" } ⟨0, 1⟩ = .ok .x ∧
      yzxFun .x ⟨1, 0, 0, 0⟩ = some (atan2 (-2 * ((0:ℝ) * 0 - 1 * 0))
        ((1:ℝ) ^ 2 + 0 ^ 2 - 0 ^ 2 - 0 ^ 2)))) :=
  ⟨rfl, C3_q2e_yzx_formulas { axis := some "Z" } ⟨0, 1⟩ "Z" ⟨1, 0, 0, 0⟩ rfl⟩

/-- C7 (code evaluation): the `asin` argument is NOT clamped.  For the
quaternion `(w, x, y, z) = (1, 1, 1, 0)` the axis-`z` argument
`2(yx + wz) = 2` lies outside `[-1, 1]` and `map` propagates a domain
failure (`math.asin` raises `ValueError`) instead of returning a value,
in both quaternion variants. -/
theorem C7_asin_unclamped_code :
    yzxFun .z ⟨1, 1, 1, 0⟩ = none ∧ yzyFun .z ⟨1, 1, 1, 0⟩ = none := by
  constructor <;> simp [yzxFun, yzyFun, asinChecked]
